import Mathlib

/-!
Verification of the download orchestrator in `download.py`.

The script drives an external command-line tool (`copernicusmarine`) to fetch
ocean datasets.  We embed its three routines shallowly:

* `dataset_has_depth` — queries the tool's `describe` interface and reports
  whether a `"depth"` dimension is present in the parsed metadata;
* `download_copernicus` — per year, builds and executes one `subset` command
  per dataset id, returning a boolean;
* `run` — iterates a fixed year list and escalates any failure.

External effects are modelled as explicit parameters:

* the process environment is a function `String → Option String`;
* the subprocess executor is a function from the argument list to an
  `ExecOutcome` (zero exit, `CalledProcessError` from a non-zero exit under
  `check=True`, or any other invocation error);
* the `describe` query is a function from a dataset id to a `DescribeResult`
  (process failure, unparseable stdout, or a parsed JSON value).

Filesystem writes and process invocations are recorded as traces (lists, in
execution order).  Numeric values that the script converts with `str()` before
placing them into the argument list (the boundary-box coordinates) are embedded
as their rendered strings, since only those strings are observable in the
commands.  Python dictionaries are embedded as `String → Option String`
lookups, `none` meaning the key is absent (a `KeyError` on subscript access).
-/

namespace HurricaneOcean

/-- Outcome of one blocking `subprocess.run(cmd, check=True)` call:
zero exit status, non-zero exit status (raises `CalledProcessError`), or any
other error during process invocation (e.g. tool not found). -/
inductive ExecOutcome where
  | success
  | calledProcessError (code : Int)
  | otherError
deriving DecidableEq

/-- How a call of `download_copernicus` terminates: a returned boolean, or an
uncaught `KeyError` escaping from a missing boundary-box key. -/
inductive DownloadStatus where
  | ok (b : Bool)
  | keyError (key : String)
deriving DecidableEq

/-- Result of `download_copernicus` together with its observable side-effect
traces: the subprocess argument lists executed and the output directories
ensured via `os.makedirs(..., exist_ok=True)`, both in execution order. -/
structure DownloadOutput where
  status : DownloadStatus
  invocations : List (List String)
  dirsCreated : List String
deriving DecidableEq

/-- `output_directory = 'data'` (line 28 of `download.py`). -/
def output_directory : String := "data"

/-- Dataset-id selection from the year (lines 30–33 of `download.py`). -/
def datasetIdsFor (year : Int) : List String :=
  if year = 2021 then
    ["cmems_mod_glo_phy_myint_0.083deg_P1D-m", "cmems_mod_glo_bgc_my_0.25deg_P1D-m"]
  else
    ["cmems_mod_glo_phy_my_0.083deg_P1D-m", "cmems_mod_glo_bgc_my_0.25deg_P1D-m"]

/-- The f-string `"\x7byear\x7d-08-01T00:00:00"` (line 40): Python renders the
integer `year` in decimal, as `toString : Int → String` does. -/
def startDatetime (year : Int) : String := toString year ++ "-08-01T00:00:00"

/-- The f-string `"\x7byear\x7d-10-31T23:59:59"` (line 41). -/
def endDatetime (year : Int) : String := toString year ++ "-10-31T23:59:59"

/-- `os.path.join(output_directory, dataset_id)` (line 56): with a relative,
non-empty second component this inserts a single separator. -/
def datasetOutputDir (dataset_id : String) : String :=
  output_directory ++ "/" ++ dataset_id

/-- The per-call data threaded into each subset command: boundary-box values
(as the strings `str()` produced), the two datetime strings, and the two
credential values read from the environment. -/
structure SubsetParams where
  lon_min : String
  lon_max : String
  lat_min : String
  lat_max : String
  start_datetime : String
  end_datetime : String
  username : String
  password : String
deriving DecidableEq

/-- The `cmd` list built on lines 61–80 of `download.py`: the base argument
list, then the two depth flags appended by the two-way branch on the
biogeochemistry dataset id. -/
def buildCmd (dataset_id : String) (p : SubsetParams) : List String :=
  let cmd : List String := [
    "copernicusmarine", "subset",
    "--dataset-id=" ++ dataset_id,
    "--minimum-longitude", p.lon_min,
    "--maximum-longitude", p.lon_max,
    "--minimum-latitude", p.lat_min,
    "--maximum-latitude", p.lat_max,
    "--file-format", "netcdf",
    "--output-directory", datasetOutputDir dataset_id,
    "--start-datetime", p.start_datetime,
    "--end-datetime", p.end_datetime,
    "--overwrite",
    "--username", p.username,
    "--password", p.password]
  if dataset_id = "cmems_mod_glo_bgc_my_0.25deg_P1D-m" then
    cmd ++ ["--minimum-depth", "0.5057600140571594", "--maximum-depth", "0.5057600140571594"]
  else
    cmd ++ ["--minimum-depth", "0.49402499198913574", "--maximum-depth", "0.49402499198913574"]

/-- Result of the dataset loop (lines 53–94): the boolean the function returns
plus the traces accumulated so far. -/
structure LoopOut where
  success : Bool
  invocations : List (List String)
  dirsCreated : List String
deriving DecidableEq

/-- The `for dataset_id in dataset_ids` loop (lines 53–91): for each id, ensure
the output directory, build the command, execute it; a `CalledProcessError`
(non-zero exit) or any other exception returns `False` at once, skipping the
remaining ids; falling off the loop returns `True` (line 94). -/
def downloadLoop (exec : List String → ExecOutcome) (p : SubsetParams) :
    List String → LoopOut
  | [] => ⟨true, [], []⟩
  | dataset_id :: rest =>
    let dir := datasetOutputDir dataset_id
    let cmd := buildCmd dataset_id p
    match exec cmd with
    | .success =>
      let r := downloadLoop exec p rest
      ⟨r.success, cmd :: r.invocations, dir :: r.dirsCreated⟩
    | .calledProcessError _ => ⟨false, [cmd], [dir]⟩
    | .otherError => ⟨false, [cmd], [dir]⟩

/-- `download_copernicus(boundary_box, year)` (lines 15–94).  In source order:
select the dataset ids from the year; read the four boundary-box keys
(`KeyError` escapes on a missing key, before anything else happens); format the
two datetimes; fail fast with `False` if either credential environment variable
is absent; then run the dataset loop. -/
def download_copernicus (boundary_box : String → Option String) (year : Int)
    (env : String → Option String) (exec : List String → ExecOutcome) :
    DownloadOutput :=
  let dataset_ids := datasetIdsFor year
  match boundary_box "lat_min" with
  | none => ⟨.keyError "lat_min", [], []⟩
  | some lat_min =>
  match boundary_box "lat_max" with
  | none => ⟨.keyError "lat_max", [], []⟩
  | some lat_max =>
  match boundary_box "lon_min" with
  | none => ⟨.keyError "lon_min", [], []⟩
  | some lon_min =>
  match boundary_box "lon_max" with
  | none => ⟨.keyError "lon_max", [], []⟩
  | some lon_max =>
  if (env "CMEMS_USERNAME").isNone || (env "CMEMS_PASSWORD").isNone then
    ⟨.ok false, [], []⟩
  else
    let p : SubsetParams :=
      { lon_min := lon_min, lon_max := lon_max,
        lat_min := lat_min, lat_max := lat_max,
        start_datetime := startDatetime year, end_datetime := endDatetime year,
        username := (env "CMEMS_USERNAME").getD "",
        password := (env "CMEMS_PASSWORD").getD "" }
    let r := downloadLoop exec p dataset_ids
    ⟨.ok r.success, r.invocations, r.dirsCreated⟩

/-- The `boundary_box` dict literal of `run` (lines 109–114), with the float
values rendered as `str()` renders them. -/
def fixed_boundary_box : String → Option String := fun k =>
  if k = "lat_min" then some "24.0"
  else if k = "lat_max" then some "31.0"
  else if k = "lon_min" then some "-92.0"
  else if k = "lon_max" then some "-86.0"
  else none

/-- `years = [2005,2006,2012,2013,2015,2021]` (line 116). -/
def years : List Int := [2005, 2006, 2012, 2013, 2015, 2021]

/-- How `run` terminates: normal return, the `Exception` raised for the first
failing year (line 124), or a `KeyError` escaping from the callee. -/
inductive RunOutcome where
  | normal
  | failedYear (year : Int)
  | keyErrorEscape (key : String)
deriving DecidableEq

/-- The `for year in years` loop of `run` (lines 121–124): call
`download_copernicus` with the fixed boundary box; raise on the first failure.
Also returns the list of years for which a call was made, in order. -/
def runLoop (env : String → Option String) (exec : List String → ExecOutcome) :
    List Int → RunOutcome × List Int
  | [] => (.normal, [])
  | year :: rest =>
    match (download_copernicus fixed_boundary_box year env exec).status with
    | .keyError k => (.keyErrorEscape k, [year])
    | .ok true =>
      let r := runLoop env exec rest
      (r.1, year :: r.2)
    | .ok false => (.failedYear year, [year])

/-- `run()` (lines 96–126): iterate the fixed year list. -/
def run (env : String → Option String) (exec : List String → ExecOutcome) :
    RunOutcome × List Int :=
  runLoop env exec years

/-- JSON values, as `json.loads` produces them (numbers collapsed to one
constructor; no claim inspects a numeric payload). -/
inductive Json where
  | null
  | boolV (b : Bool)
  | numV (n : Int)
  | strV (s : String)
  | arrV (elems : List Json)
  | objV (fields : List (String × Json))

/-- Dict key lookup on a parsed JSON object (`metadata.get`); parsed objects
have unique keys, so first match suffices. -/
def jsonGet (fields : List (String × Json)) (k : String) : Option Json :=
  (fields.find? (fun q => q.1 = k)).map (fun q => q.2)

/-- A Python expression that either evaluates to a boolean or raises. -/
inductive PyBool where
  | ok (b : Bool)
  | exn
deriving DecidableEq

/-- Whether `need` occurs as a contiguous run inside `hay`
(Python `in` on strings). -/
def strContains (hay need : String) : Bool :=
  (List.range (hay.toList.length + 1)).any
    (fun i => ((hay.toList.drop i).take need.toList.length) = need.toList)

/-- Python `needle in container` for a string needle and a JSON container:
key membership on a dict, element equality on a list, contiguous-run test on a
string, `TypeError` otherwise. -/
def pyInJson (needle : String) : Json → PyBool
  | .objV fields => .ok (fields.any (fun q => q.1 = needle))
  | .arrV xs => .ok (xs.any (fun x => match x with | .strV s => s = needle | _ => false))
  | .strV s => .ok (strContains s needle)
  | _ => .exn

/-- Outcome of the `copernicusmarine describe --dataset-id <id>` query as
`dataset_has_depth` observes it: the `subprocess.run(..., check=True)` call
raises; or its stdout is not valid JSON (`json.loads` raises); or it parses. -/
inductive DescribeResult where
  | processError
  | badJson
  | parsed (j : Json)

/-- `dataset_has_depth(dataset_id)` (lines 6–13 of `download.py`): run the
describe query (errors propagate), parse its stdout (errors propagate), take
`metadata.get('dimensions', \x7b\x7d)` (an `AttributeError` propagates when the
parsed value is not a dict), and test `'depth' in dimensions`. -/
def dataset_has_depth (describe : String → DescribeResult) (dataset_id : String) :
    PyBool :=
  match describe dataset_id with
  | .processError => .exn
  | .badJson => .exn
  | .parsed metadata =>
    match metadata with
    | .objV fields =>
      let dimensions := (jsonGet fields "dimensions").getD (.objV [])
      pyInJson "depth" dimensions
    | _ => .exn

/-- An environment holding both credentials (for concrete evaluations). -/
def envFull : String → Option String := fun k =>
  if k = "CMEMS_USERNAME" then some "alice"
  else if k = "CMEMS_PASSWORD" then some "hunter2"
  else none

/-- An environment holding neither credential. -/
def envEmpty : String → Option String := fun _ => none

/-- An executor on which every invocation exits with status zero. -/
def execAllOk : List String → ExecOutcome := fun _ => .success

/-- An executor on which every invocation exits with a non-zero status. -/
def execAllFail : List String → ExecOutcome := fun _ => .calledProcessError 1

/-- A concrete describe interface: dataset `"A"` has a depth dimension,
dataset `"B"` does not, any other query fails at the process level. -/
def describeSample : String → DescribeResult := fun id =>
  if id = "A" then .parsed (.objV [("dimensions", .objV [("depth", .null), ("time", .null)])])
  else if id = "B" then .parsed (.objV [("dimensions", .objV [("time", .null)])])
  else .processError

/-- A boundary box missing the `lat_max` key. -/
def boxNoLatMax : String → Option String := fun k =>
  if k = "lat_min" then some "24.0" else none

/-! ### Loop characterisation lemmas -/

/-- When every command of the list succeeds, the loop runs every dataset and
returns `True` with full traces. -/
lemma downloadLoop_all_success (exec : List String → ExecOutcome) (p : SubsetParams) :
    ∀ ids : List String, (∀ id ∈ ids, exec (buildCmd id p) = .success) →
    downloadLoop exec p ids =
      ⟨true, ids.map (fun id => buildCmd id p), ids.map datasetOutputDir⟩ := by
  intro ids
  induction ids with
  | nil => intro _; rfl
  | cons a rest ih =>
    intro h
    have ha : exec (buildCmd a p) = .success := h a (by simp)
    have hrest := ih (fun id hid => h id (by simp [hid]))
    simp [downloadLoop, ha, hrest]

/-- The loop returns `True` exactly when every dataset's command succeeds. -/
lemma downloadLoop_success_iff (exec : List String → ExecOutcome) (p : SubsetParams) :
    ∀ ids : List String,
    ((downloadLoop exec p ids).success = true ↔
      ∀ id ∈ ids, exec (buildCmd id p) = .success) := by
  intro ids
  induction ids with
  | nil => simp [downloadLoop]
  | cons a rest ih =>
    cases ha : exec (buildCmd a p) with
    | success => simp [downloadLoop, ha, ih]
    | calledProcessError c =>
      simp only [downloadLoop, ha]
      constructor
      · intro h; cases h
      · intro h
        have := h a (by simp)
        rw [this] at ha; cases ha
    | otherError =>
      simp only [downloadLoop, ha]
      constructor
      · intro h; cases h
      · intro h
        have := h a (by simp)
        rw [this] at ha; cases ha

/-- The traces of the loop are always the commands and directories of an
initial segment of the dataset-id list, paired index by index. -/
lemma downloadLoop_trace (exec : List String → ExecOutcome) (p : SubsetParams) :
    ∀ ids : List String, ∃ n, n ≤ ids.length ∧ (ids = [] → n = 0) ∧ (ids ≠ [] → 1 ≤ n) ∧
    (downloadLoop exec p ids).invocations = (ids.take n).map (fun id => buildCmd id p) ∧
    (downloadLoop exec p ids).dirsCreated = (ids.take n).map datasetOutputDir := by
  intro ids
  induction ids with
  | nil => exact ⟨0, by simp [downloadLoop]⟩
  | cons a rest ih =>
    cases ha : exec (buildCmd a p) with
    | success =>
      obtain ⟨n, hn, _, _, hinv, hdir⟩ := ih
      refine ⟨n + 1, by simpa using hn, by simp, fun _ => by omega, ?_, ?_⟩
      · simp [downloadLoop, ha, hinv]
      · simp [downloadLoop, ha, hdir]
    | calledProcessError c =>
      exact ⟨1, by simp, by simp, fun _ => le_refl 1, by simp [downloadLoop, ha], by simp [downloadLoop, ha]⟩
    | otherError =>
      exact ⟨1, by simp, by simp, fun _ => le_refl 1, by simp [downloadLoop, ha], by simp [downloadLoop, ha]⟩

/-- If the command at index `i` fails while every earlier command succeeds,
the loop stops there: it returns `False` and its traces cover exactly the
first `i + 1` dataset ids. -/
lemma downloadLoop_firstFail (exec : List String → ExecOutcome) (p : SubsetParams) :
    ∀ (ids : List String) (i : Nat) (id : String), ids.get? i = some id →
    (∀ j, j < i → ∀ id2, ids.get? j = some id2 → exec (buildCmd id2 p) = .success) →
    exec (buildCmd id p) ≠ .success →
    downloadLoop exec p ids =
      ⟨false, (ids.take (i + 1)).map (fun d => buildCmd d p),
        (ids.take (i + 1)).map datasetOutputDir⟩ := by
  intro ids
  induction ids with
  | nil => intro i id h; simp at h
  | cons a rest ih =>
    intro i id hget hall hfail
    cases i with
    | zero =>
      have haid : a = id := by simpa using hget
      subst haid
      cases ha : exec (buildCmd a p) with
      | success => exact absurd ha hfail
      | calledProcessError c => simp [downloadLoop, ha]
      | otherError => simp [downloadLoop, ha]
    | succ i' =>
      have ha : exec (buildCmd a p) = .success := by
        exact hall 0 (Nat.succ_pos _) a (by simp)
      have hrec := ih i' id (by simpa using hget)
        (fun j hj id2 hg => hall (j + 1) (by omega) id2 (by simpa using hg)) hfail
      simp [downloadLoop, ha, hrec]

/-- Unfolding of `download_copernicus` when every boundary-box key is present
and both credentials are set: the call reduces to the dataset loop. -/
lemma download_copernicus_eq (boundary_box : String → Option String) (year : Int)
    (env : String → Option String) (exec : List String → ExecOutcome)
    (latn latx lonn lonx u pw : String)
    (h1 : boundary_box "lat_min" = some latn) (h2 : boundary_box "lat_max" = some latx)
    (h3 : boundary_box "lon_min" = some lonn) (h4 : boundary_box "lon_max" = some lonx)
    (hu : env "CMEMS_USERNAME" = some u) (hp : env "CMEMS_PASSWORD" = some pw) :
    download_copernicus boundary_box year env exec =
      ⟨.ok (downloadLoop exec ⟨lonn, lonx, latn, latx,
          startDatetime year, endDatetime year, u, pw⟩ (datasetIdsFor year)).success,
        (downloadLoop exec ⟨lonn, lonx, latn, latx,
          startDatetime year, endDatetime year, u, pw⟩ (datasetIdsFor year)).invocations,
        (downloadLoop exec ⟨lonn, lonx, latn, latx,
          startDatetime year, endDatetime year, u, pw⟩ (datasetIdsFor year)).dirsCreated⟩ := by
  simp [download_copernicus, h1, h2, h3, h4, hu, hp]

/-! ### Claims -/

/-- Claim C1: for every boundary box (with its four keys present) and year
with both credential environment variables set, `download_copernicus` returns
true iff every dataset subprocess for that year exits with status zero; on the
first non-zero exit status or any other invocation error it returns false, and
its invocation trace stops at the failing dataset, so no remaining dataset of
that year is attempted. -/
theorem C1_success_iff_all_zero_and_abort_on_first_failure
    (boundary_box : String → Option String) (year : Int)
    (env : String → Option String) (exec : List String → ExecOutcome)
    (latn latx lonn lonx u pw : String)
    (h1 : boundary_box "lat_min" = some latn) (h2 : boundary_box "lat_max" = some latx)
    (h3 : boundary_box "lon_min" = some lonn) (h4 : boundary_box "lon_max" = some lonx)
    (hu : env "CMEMS_USERNAME" = some u) (hp : env "CMEMS_PASSWORD" = some pw) :
    ((download_copernicus boundary_box year env exec).status = .ok true ↔
      ∀ id ∈ datasetIdsFor year,
        exec (buildCmd id ⟨lonn, lonx, latn, latx,
          startDatetime year, endDatetime year, u, pw⟩) = .success) ∧
    (∀ i id, (datasetIdsFor year).get? i = some id →
      (∀ j, j < i → ∀ id2, (datasetIdsFor year).get? j = some id2 →
        exec (buildCmd id2 ⟨lonn, lonx, latn, latx,
          startDatetime year, endDatetime year, u, pw⟩) = .success) →
      exec (buildCmd id ⟨lonn, lonx, latn, latx,
        startDatetime year, endDatetime year, u, pw⟩) ≠ .success →
      (download_copernicus boundary_box year env exec).status = .ok false ∧
      (download_copernicus boundary_box year env exec).invocations =
        ((datasetIdsFor year).take (i + 1)).map (fun d => buildCmd d
          ⟨lonn, lonx, latn, latx, startDatetime year, endDatetime year, u, pw⟩)) := by
  rw [download_copernicus_eq boundary_box year env exec latn latx lonn lonx u pw
    h1 h2 h3 h4 hu hp]
  refine ⟨?_, ?_⟩
  · simpa using downloadLoop_success_iff exec
      ⟨lonn, lonx, latn, latx, startDatetime year, endDatetime year, u, pw⟩
      (datasetIdsFor year)
  · intro i id hget hall hfail
    rw [downloadLoop_firstFail exec _ (datasetIdsFor year) i id hget hall hfail]
    exact ⟨rfl, rfl⟩

/-- Concrete instance of C1: with all commands succeeding the call reports
true; with the first command failing it reports false having attempted only
the first dataset. -/
theorem C1_witness :
    (download_copernicus fixed_boundary_box 2005 envFull execAllOk).status = .ok true ∧
    (download_copernicus fixed_boundary_box 2005 envFull execAllFail).status = .ok false ∧
    (download_copernicus fixed_boundary_box 2005 envFull execAllFail).invocations =
      ((datasetIdsFor 2005).take 1).map (fun d => buildCmd d
        ⟨"-92.0", "-86.0", "24.0", "31.0",
          startDatetime 2005, endDatetime 2005, "alice", "hunter2"⟩) := by
  have hA := C1_success_iff_all_zero_and_abort_on_first_failure
    fixed_boundary_box 2005 envFull execAllOk
    "24.0" "31.0" "-92.0" "-86.0" "alice" "hunter2" rfl rfl rfl rfl rfl rfl
  have hB := C1_success_iff_all_zero_and_abort_on_first_failure
    fixed_boundary_box 2005 envFull execAllFail
    "24.0" "31.0" "-92.0" "-86.0" "alice" "hunter2" rfl rfl rfl rfl rfl rfl
  have hfail := hB.2 0 "cmems_mod_glo_phy_my_0.083deg_P1D-m" (by decide)
    (fun j hj id2 _ => absurd hj (Nat.not_lt_zero j))
    (by simp [execAllFail])
  exact ⟨hA.1.mpr (fun id _ => rfl), hfail.1, hfail.2⟩

/-- Claim C2: for every boundary box (with its four keys present) and year,
if either credential environment variable is absent, `download_copernicus`
returns false with zero subprocess invocations (and no directory created). -/
theorem C2_missing_credentials_fail_fast
    (boundary_box : String → Option String) (year : Int)
    (env : String → Option String) (exec : List String → ExecOutcome)
    (latn latx lonn lonx : String)
    (h1 : boundary_box "lat_min" = some latn) (h2 : boundary_box "lat_max" = some latx)
    (h3 : boundary_box "lon_min" = some lonn) (h4 : boundary_box "lon_max" = some lonx)
    (hmiss : env "CMEMS_USERNAME" = none ∨ env "CMEMS_PASSWORD" = none) :
    download_copernicus boundary_box year env exec = ⟨.ok false, [], []⟩ := by
  rcases hmiss with h | h <;>
    simp [download_copernicus, h1, h2, h3, h4, h]

/-- Concrete instance of C2: the empty environment makes the call fail with
empty traces. -/
theorem C2_witness :
    download_copernicus fixed_boundary_box 2012 envEmpty execAllOk =
      ⟨.ok false, [], []⟩ :=
  C2_missing_credentials_fail_fast fixed_boundary_box 2012 envEmpty execAllOk
    "24.0" "31.0" "-92.0" "-86.0" rfl rfl rfl rfl (Or.inl rfl)

/-- Claim C3: the dataset-id selection of `download_copernicus` (lines 30–33)
is determined by the year: for 2021 the near-real-time-interim physics dataset
plus biogeochemistry, otherwise the multi-year physics dataset plus
biogeochemistry. -/
theorem C3_dataset_selection_by_year (year : Int) :
    (year = 2021 → datasetIdsFor year =
      ["cmems_mod_glo_phy_myint_0.083deg_P1D-m", "cmems_mod_glo_bgc_my_0.25deg_P1D-m"]) ∧
    (year ≠ 2021 → datasetIdsFor year =
      ["cmems_mod_glo_phy_my_0.083deg_P1D-m", "cmems_mod_glo_bgc_my_0.25deg_P1D-m"]) := by
  constructor <;> intro h <;> simp [datasetIdsFor, h]

/-- Concrete instance of C3 at years 2021 and 2005. -/
theorem C3_witness :
    datasetIdsFor 2021 =
      ["cmems_mod_glo_phy_myint_0.083deg_P1D-m", "cmems_mod_glo_bgc_my_0.25deg_P1D-m"] ∧
    datasetIdsFor 2005 =
      ["cmems_mod_glo_phy_my_0.083deg_P1D-m", "cmems_mod_glo_bgc_my_0.25deg_P1D-m"] :=
  ⟨(C3_dataset_selection_by_year 2021).1 rfl,
   (C3_dataset_selection_by_year 2005).2 (by decide)⟩

/-- Claim C4: every subset command built by `download_copernicus` ends with
the two depth flags, both set to 0.5057600140571594 for the biogeochemistry
dataset id and both to 0.49402499198913574 for every other dataset id (the
base command always has 24 entries, so entries 24–27 are the depth flags). -/
theorem C4_depth_flags_by_dataset (dataset_id : String) (p : SubsetParams) :
    (buildCmd dataset_id p).drop 24 =
      (if dataset_id = "cmems_mod_glo_bgc_my_0.25deg_P1D-m" then
        ["--minimum-depth", "0.5057600140571594",
         "--maximum-depth", "0.5057600140571594"]
      else
        ["--minimum-depth", "0.49402499198913574",
         "--maximum-depth", "0.49402499198913574"]) := by
  by_cases h : dataset_id = "cmems_mod_glo_bgc_my_0.25deg_P1D-m" <;>
    simp [buildCmd, h]

/-- When every year's download reports success, the driver loop visits every
year and returns normally. -/
lemma runLoop_all_ok (env : String → Option String) (exec : List String → ExecOutcome) :
    ∀ ys : List Int,
    (∀ y ∈ ys, (download_copernicus fixed_boundary_box y env exec).status = .ok true) →
    runLoop env exec ys = (.normal, ys) := by
  intro ys
  induction ys with
  | nil => intro _; rfl
  | cons a rest ih =>
    intro h
    have ha : (download_copernicus fixed_boundary_box a env exec).status = .ok true :=
      h a (by simp)
    have hrest := ih (fun y hy => h y (by simp [hy]))
    simp [runLoop, ha, hrest]

/-- When the download for the year at index `i` reports failure and every
earlier year succeeds, the driver loop raises for that year having visited
exactly the years up to and including it. -/
lemma runLoop_firstFail (env : String → Option String) (exec : List String → ExecOutcome) :
    ∀ (ys : List Int) (i : Nat) (y : Int), ys.get? i = some y →
    (∀ j, j < i → ∀ y2, ys.get? j = some y2 →
      (download_copernicus fixed_boundary_box y2 env exec).status = .ok true) →
    (download_copernicus fixed_boundary_box y env exec).status = .ok false →
    runLoop env exec ys = (.failedYear y, ys.take (i + 1)) := by
  intro ys
  induction ys with
  | nil => intro i y h; simp at h
  | cons a rest ih =>
    intro i y hget hall hfail
    cases i with
    | zero =>
      have hay : a = y := by simpa using hget
      subst hay
      simp [runLoop, hfail]
    | succ i' =>
      have ha : (download_copernicus fixed_boundary_box a env exec).status = .ok true :=
        hall 0 (Nat.succ_pos _) a (by simp)
      have hrec := ih i' y (by simpa using hget)
        (fun j hj y2 hg => hall (j + 1) (by omega) y2 (by simpa using hg)) hfail
      simp [runLoop, ha, hrec]

/-- Claim C5: `run` iterates the fixed year list [2005, 2006, 2012, 2013,
2015, 2021] with the fixed boundary box; if every year's call succeeds it
returns normally having attempted every year; on the first year whose call
reports failure it raises the error carrying that year, having attempted no
subsequent year. -/
theorem C5_run_halts_on_first_failing_year
    (env : String → Option String) (exec : List String → ExecOutcome) :
    ((∀ y ∈ years,
        (download_copernicus fixed_boundary_box y env exec).status = .ok true) →
      run env exec = (.normal, years)) ∧
    (∀ i y, years.get? i = some y →
      (∀ j, j < i → ∀ y2, years.get? j = some y2 →
        (download_copernicus fixed_boundary_box y2 env exec).status = .ok true) →
      (download_copernicus fixed_boundary_box y env exec).status = .ok false →
      run env exec = (.failedYear y, years.take (i + 1))) :=
  ⟨fun h => runLoop_all_ok env exec years h,
   fun i y hget hall hfail => runLoop_firstFail env exec years i y hget hall hfail⟩

/-- Concrete instance of C5: with every command succeeding, `run` finishes all
six years; with every command failing, it raises for 2005 having attempted
only 2005. -/
theorem C5_witness :
    run envFull execAllOk = (.normal, years) ∧
    run envFull execAllFail = (.failedYear 2005, years.take 1) := by
  refine ⟨(C5_run_halts_on_first_failing_year envFull execAllOk).1 ?_,
    (C5_run_halts_on_first_failing_year envFull execAllFail).2 0 2005 rfl
      (fun j hj y2 _ => absurd hj (Nat.not_lt_zero j)) ?_⟩
  · decide
  · rfl

/-- Claim C6: every command `download_copernicus` executes carries the
start and end datetimes of the August-to-October window of the requested
year, at the documented positions in the argument list. -/
theorem C6_season_window_datetimes
    (boundary_box : String → Option String) (year : Int)
    (env : String → Option String) (exec : List String → ExecOutcome)
    (latn latx lonn lonx u pw : String)
    (h1 : boundary_box "lat_min" = some latn) (h2 : boundary_box "lat_max" = some latx)
    (h3 : boundary_box "lon_min" = some lonn) (h4 : boundary_box "lon_max" = some lonx)
    (hu : env "CMEMS_USERNAME" = some u) (hp : env "CMEMS_PASSWORD" = some pw) :
    ∀ c ∈ (download_copernicus boundary_box year env exec).invocations,
      c.get? 15 = some "--start-datetime" ∧
      c.get? 16 = some (toString year ++ "-08-01T00:00:00") ∧
      c.get? 17 = some "--end-datetime" ∧
      c.get? 18 = some (toString year ++ "-10-31T23:59:59") := by
  rw [download_copernicus_eq boundary_box year env exec latn latx lonn lonx u pw
    h1 h2 h3 h4 hu hp]
  intro c hc
  obtain ⟨n, _, _, _, hinv, _⟩ := downloadLoop_trace exec
    ⟨lonn, lonx, latn, latx, startDatetime year, endDatetime year, u, pw⟩
    (datasetIdsFor year)
  simp only [hinv, List.mem_map] at hc
  obtain ⟨id, _, rfl⟩ := hc
  by_cases h : id = "cmems_mod_glo_bgc_my_0.25deg_P1D-m" <;>
    simp [buildCmd, h, startDatetime, endDatetime]

/-- Concrete instance of C6: the first command of the 2021 run carries the
2021 season window. -/
theorem C6_witness :
    buildCmd "cmems_mod_glo_phy_myint_0.083deg_P1D-m"
        ⟨"-92.0", "-86.0", "24.0", "31.0",
          startDatetime 2021, endDatetime 2021, "alice", "hunter2"⟩ ∈
      (download_copernicus fixed_boundary_box 2021 envFull execAllOk).invocations ∧
    (buildCmd "cmems_mod_glo_phy_myint_0.083deg_P1D-m"
        ⟨"-92.0", "-86.0", "24.0", "31.0",
          startDatetime 2021, endDatetime 2021, "alice", "hunter2"⟩).get? 16 =
      some "2021-08-01T00:00:00" ∧
    (buildCmd "cmems_mod_glo_phy_myint_0.083deg_P1D-m"
        ⟨"-92.0", "-86.0", "24.0", "31.0",
          startDatetime 2021, endDatetime 2021, "alice", "hunter2"⟩).get? 18 =
      some "2021-10-31T23:59:59" := by
  have hmem : buildCmd "cmems_mod_glo_phy_myint_0.083deg_P1D-m"
      ⟨"-92.0", "-86.0", "24.0", "31.0",
        startDatetime 2021, endDatetime 2021, "alice", "hunter2"⟩ ∈
      (download_copernicus fixed_boundary_box 2021 envFull execAllOk).invocations := by
    decide
  have h := C6_season_window_datetimes fixed_boundary_box 2021 envFull execAllOk
    "24.0" "31.0" "-92.0" "-86.0" "alice" "hunter2" rfl rfl rfl rfl rfl rfl
    _ hmem
  exact ⟨hmem, h.2.1, h.2.2.2⟩

/-- The dataset-id list is never empty (each branch lists two datasets). -/
lemma datasetIdsFor_ne_nil (year : Int) : datasetIdsFor year ≠ [] := by
  unfold datasetIdsFor
  split <;> simp

/-- Claim C7: for each dataset id processed, `download_copernicus` ensures the
directory `data/<dataset_id>` and executes exactly the documented subset
command with the flags in the documented order, datasets taken in list
order. -/
theorem C7_exact_command_and_directory_per_dataset
    (boundary_box : String → Option String) (year : Int)
    (env : String → Option String) (exec : List String → ExecOutcome)
    (latn latx lonn lonx u pw : String)
    (h1 : boundary_box "lat_min" = some latn) (h2 : boundary_box "lat_max" = some latx)
    (h3 : boundary_box "lon_min" = some lonn) (h4 : boundary_box "lon_max" = some lonx)
    (hu : env "CMEMS_USERNAME" = some u) (hp : env "CMEMS_PASSWORD" = some pw) :
    (download_copernicus boundary_box year env exec).invocations.length =
      (download_copernicus boundary_box year env exec).dirsCreated.length ∧
    (download_copernicus boundary_box year env exec).invocations.length ≤
      (datasetIdsFor year).length ∧
    ∀ i, i < (download_copernicus boundary_box year env exec).invocations.length →
      ∃ id, (datasetIdsFor year).get? i = some id ∧
        (download_copernicus boundary_box year env exec).dirsCreated.get? i =
          some ("data" ++ "/" ++ id) ∧
        (download_copernicus boundary_box year env exec).invocations.get? i =
          some ((["copernicusmarine", "subset",
            "--dataset-id=" ++ id,
            "--minimum-longitude", lonn,
            "--maximum-longitude", lonx,
            "--minimum-latitude", latn,
            "--maximum-latitude", latx,
            "--file-format", "netcdf",
            "--output-directory", "data" ++ "/" ++ id,
            "--start-datetime", toString year ++ "-08-01T00:00:00",
            "--end-datetime", toString year ++ "-10-31T23:59:59",
            "--overwrite",
            "--username", u,
            "--password", pw] : List String) ++
          (if id = "cmems_mod_glo_bgc_my_0.25deg_P1D-m" then
            ["--minimum-depth", "0.5057600140571594",
             "--maximum-depth", "0.5057600140571594"]
          else
            ["--minimum-depth", "0.49402499198913574",
             "--maximum-depth", "0.49402499198913574"])) := by
  rw [download_copernicus_eq boundary_box year env exec latn latx lonn lonx u pw
    h1 h2 h3 h4 hu hp]
  obtain ⟨n, hn, -, -, hinv, hdir⟩ := downloadLoop_trace exec
    ⟨lonn, lonx, latn, latx, startDatetime year, endDatetime year, u, pw⟩
    (datasetIdsFor year)
  refine ⟨?_, ?_, ?_⟩
  · simp [hinv, hdir]
  · simp only [hinv, List.length_map, List.length_take]
    omega
  · intro i hi
    simp only [hinv, List.length_map, List.length_take] at hi
    have hilt : i < (datasetIdsFor year).length := lt_of_lt_of_le (lt_min_iff.mp hi).1 hn
    have hin : i < n := (lt_min_iff.mp hi).1
    obtain ⟨id, hid⟩ : ∃ id, (datasetIdsFor year).get? i = some id :=
      ⟨(datasetIdsFor year).get ⟨i, hilt⟩, List.get?_eq_get hilt⟩
    refine ⟨id, hid, ?_, ?_⟩
    · simp only [hdir, List.get?_map, List.get?_take hin, hid, Option.map_some]
      rfl
    · simp only [hinv, List.get?_map, List.get?_take hin, hid, Option.map_some]
      by_cases h : id = "cmems_mod_glo_bgc_my_0.25deg_P1D-m" <;>
        simp [buildCmd, h, datasetOutputDir, output_directory,
          startDatetime, endDatetime]

/-- Concrete instance of C7: the first dataset of the 2005 run gets its
directory and its exact subset command. -/
theorem C7_witness :
    (download_copernicus fixed_boundary_box 2005 envFull execAllOk).invocations.length =
      (download_copernicus fixed_boundary_box 2005 envFull execAllOk).dirsCreated.length ∧
    (download_copernicus fixed_boundary_box 2005 envFull execAllOk).dirsCreated.get? 0 =
      some "data/cmems_mod_glo_phy_my_0.083deg_P1D-m" ∧
    (download_copernicus fixed_boundary_box 2005 envFull execAllOk).invocations.get? 0 =
      some ["copernicusmarine", "subset",
        "--dataset-id=cmems_mod_glo_phy_my_0.083deg_P1D-m",
        "--minimum-longitude", "-92.0",
        "--maximum-longitude", "-86.0",
        "--minimum-latitude", "24.0",
        "--maximum-latitude", "31.0",
        "--file-format", "netcdf",
        "--output-directory", "data/cmems_mod_glo_phy_my_0.083deg_P1D-m",
        "--start-datetime", "2005-08-01T00:00:00",
        "--end-datetime", "2005-10-31T23:59:59",
        "--overwrite",
        "--username", "alice",
        "--password", "hunter2",
        "--minimum-depth", "0.49402499198913574",
        "--maximum-depth", "0.49402499198913574"] := by
  have h := C7_exact_command_and_directory_per_dataset
    fixed_boundary_box 2005 envFull execAllOk
    "24.0" "31.0" "-92.0" "-86.0" "alice" "hunter2" rfl rfl rfl rfl rfl rfl
  obtain ⟨id, hid, hdir, hcmd⟩ := h.2.2 0 (by decide)
  have hideq : id = "cmems_mod_glo_phy_my_0.083deg_P1D-m" := by
    have h0 : (datasetIdsFor 2005).get? 0 =
        some "cmems_mod_glo_phy_my_0.083deg_P1D-m" := by decide
    rw [h0] at hid
    exact (Option.some.injEq _ _ ▸ hid).symm
  subst hideq
  refine ⟨h.1, ?_, ?_⟩
  · rw [hdir]; rfl
  · rw [hcmd]; rfl

/-- Claim C8: `dataset_has_depth` reports whether the key `"depth"` occurs in
the `dimensions` mapping of the parsed describe output, and propagates an
exception (rather than returning a boolean) when the external query fails or
its stdout cannot be parsed. -/
theorem C8_depth_probe
    (describe : String → DescribeResult) (dataset_id : String) :
    (describe dataset_id = .processError →
      dataset_has_depth describe dataset_id = .exn) ∧
    (describe dataset_id = .badJson →
      dataset_has_depth describe dataset_id = .exn) ∧
    (∀ fields dims, describe dataset_id = .parsed (.objV fields) →
      jsonGet fields "dimensions" = some (.objV dims) →
      dataset_has_depth describe dataset_id =
        .ok (dims.any (fun q => q.1 = "depth")) ∧
      (dataset_has_depth describe dataset_id = .ok true ↔
        "depth" ∈ dims.map Prod.fst)) := by
  refine ⟨fun h => by simp [dataset_has_depth, h],
    fun h => by simp [dataset_has_depth, h], ?_⟩
  intro fields dims hdesc hdims
  have heval : dataset_has_depth describe dataset_id =
      .ok (dims.any (fun q => q.1 = "depth")) := by
    simp [dataset_has_depth, hdesc, hdims, pyInJson]
  refine ⟨heval, ?_⟩
  rw [heval]
  constructor
  · intro h
    have hany : dims.any (fun q => q.1 = "depth") = true := by
      cases hb : dims.any (fun q => q.1 = "depth")
      · rw [hb] at h; cases h
      · rfl
    rw [List.any_eq_true] at hany
    obtain ⟨q, hq, hq1⟩ := hany
    simp only [decide_eq_true_eq] at hq1
    exact List.mem_map.mpr ⟨q, hq, hq1⟩
  · intro h
    obtain ⟨q, hq, hq1⟩ := List.mem_map.mp h
    have : dims.any (fun q => q.1 = "depth") = true :=
      List.any_eq_true.mpr ⟨q, hq, by simp [hq1]⟩
    rw [this]

/-- Concrete instance of C8 on `describeSample`. -/
theorem C8_witness :
    dataset_has_depth describeSample "A" = .ok true ∧
    dataset_has_depth describeSample "B" = .ok false ∧
    dataset_has_depth describeSample "C" = .exn := by
  have hA := (C8_depth_probe describeSample "A").2.2
    [("dimensions", .objV [("depth", .null), ("time", .null)])]
    [("depth", .null), ("time", .null)] rfl rfl
  have hB := (C8_depth_probe describeSample "B").2.2
    [("dimensions", .objV [("time", .null)])] [("time", .null)] rfl rfl
  have hC := (C8_depth_probe describeSample "C").1 rfl
  refine ⟨hA.2.mpr (by simp), ?_, hC⟩
  have := hB.1
  simpa using this

/-- Claim C9: a boundary box missing one of its four keys makes
`download_copernicus` raise a `KeyError` for the first missing key (in source
order), before the credential check and before any directory creation or
subprocess invocation, whatever the environment and executor. -/
theorem C9_missing_box_key_raises
    (boundary_box : String → Option String) (year : Int)
    (env : String → Option String) (exec : List String → ExecOutcome) :
    (boundary_box "lat_min" = none →
      download_copernicus boundary_box year env exec = ⟨.keyError "lat_min", [], []⟩) ∧
    (∀ a, boundary_box "lat_min" = some a → boundary_box "lat_max" = none →
      download_copernicus boundary_box year env exec = ⟨.keyError "lat_max", [], []⟩) ∧
    (∀ a b, boundary_box "lat_min" = some a → boundary_box "lat_max" = some b →
      boundary_box "lon_min" = none →
      download_copernicus boundary_box year env exec = ⟨.keyError "lon_min", [], []⟩) ∧
    (∀ a b c, boundary_box "lat_min" = some a → boundary_box "lat_max" = some b →
      boundary_box "lon_min" = some c → boundary_box "lon_max" = none →
      download_copernicus boundary_box year env exec = ⟨.keyError "lon_max", [], []⟩) := by
  refine ⟨?_, ?_, ?_, ?_⟩
  · intro h; simp [download_copernicus, h]
  · intro a ha h; simp [download_copernicus, ha, h]
  · intro a b ha hb h; simp [download_copernicus, ha, hb, h]
  · intro a b c ha hb hc h; simp [download_copernicus, ha, hb, hc, h]

/-- Concrete instance of C9: with `lat_max` absent the call raises `KeyError`
with empty traces, even though the environment also lacks the credentials. -/
theorem C9_witness :
    download_copernicus boxNoLatMax 2005 envEmpty execAllOk =
      ⟨.keyError "lat_max", [], []⟩ :=
  (C9_missing_box_key_raises boxNoLatMax 2005 envEmpty execAllOk).2.1 "24.0" rfl rfl

/-- Claim C10: when `download_copernicus` (with box keys and credentials
present) returns false, at least one dataset was attempted and the directory
trace pairs a created `data/<dataset_id>` directory with every attempted
dataset, the failing one included: directory creation precedes the failing
subprocess and is not rolled back. -/
theorem C10_failure_leaves_directories
    (boundary_box : String → Option String) (year : Int)
    (env : String → Option String) (exec : List String → ExecOutcome)
    (latn latx lonn lonx u pw : String)
    (h1 : boundary_box "lat_min" = some latn) (h2 : boundary_box "lat_max" = some latx)
    (h3 : boundary_box "lon_min" = some lonn) (h4 : boundary_box "lon_max" = some lonx)
    (hu : env "CMEMS_USERNAME" = some u) (hp : env "CMEMS_PASSWORD" = some pw)
    (hfail : (download_copernicus boundary_box year env exec).status = .ok false) :
    (download_copernicus boundary_box year env exec).invocations ≠ [] ∧
    (download_copernicus boundary_box year env exec).dirsCreated.length =
      (download_copernicus boundary_box year env exec).invocations.length ∧
    ∀ i, i < (download_copernicus boundary_box year env exec).invocations.length →
      ∃ id, (datasetIdsFor year).get? i = some id ∧
        (download_copernicus boundary_box year env exec).dirsCreated.get? i =
          some (datasetOutputDir id) := by
  rw [download_copernicus_eq boundary_box year env exec latn latx lonn lonx u pw
    h1 h2 h3 h4 hu hp] at hfail ⊢
  obtain ⟨n, hn, -, hpos, hinv, hdir⟩ := downloadLoop_trace exec
    ⟨lonn, lonx, latn, latx, startDatetime year, endDatetime year, u, pw⟩
    (datasetIdsFor year)
  have hne : 1 ≤ n := hpos (datasetIdsFor_ne_nil year)
  refine ⟨?_, ?_, ?_⟩
  · simp only [hinv, ne_eq, List.map_eq_nil, List.take_eq_nil_iff]
    push_neg
    exact ⟨by omega, datasetIdsFor_ne_nil year⟩
  · simp [hinv, hdir]
  · intro i hi
    simp only [hinv, List.length_map, List.length_take] at hi
    have hilt : i < (datasetIdsFor year).length := lt_of_lt_of_le (lt_min_iff.mp hi).1 hn
    have hin : i < n := (lt_min_iff.mp hi).1
    obtain ⟨id, hid⟩ : ∃ id, (datasetIdsFor year).get? i = some id :=
      ⟨(datasetIdsFor year).get ⟨i, hilt⟩, List.get?_eq_get hilt⟩
    refine ⟨id, hid, ?_⟩
    simp only [hdir, List.get?_map, List.get?_take hin, hid, Option.map_some]
    rfl

/-- Concrete instance of C10: on a run whose first subprocess fails, the call
reports false yet the first dataset's directory entry is already recorded. -/
theorem C10_witness :
    (download_copernicus fixed_boundary_box 2005 envFull execAllFail).invocations ≠ [] ∧
    (download_copernicus fixed_boundary_box 2005 envFull execAllFail).dirsCreated.get? 0 =
      some (datasetOutputDir "cmems_mod_glo_phy_my_0.083deg_P1D-m") := by
  have h := C10_failure_leaves_directories
    fixed_boundary_box 2005 envFull execAllFail
    "24.0" "31.0" "-92.0" "-86.0" "alice" "hunter2" rfl rfl rfl rfl rfl rfl rfl
  obtain ⟨id, hid, hdir⟩ := h.2.2 0 (by decide)
  have hideq : id = "cmems_mod_glo_phy_my_0.083deg_P1D-m" := by
    have h0 : (datasetIdsFor 2005).get? 0 =
        some "cmems_mod_glo_phy_my_0.083deg_P1D-m" := by decide
    rw [h0] at hid
    exact (Option.some.injEq _ _ ▸ hid).symm
  subst hideq
  exact ⟨h.1, hdir⟩

end HurricaneOcean
